import Mathlib

/-
  Spec2Proof.lean - a shallow embedding of the N26-to-YNAB bridge
  (main.py, src/api.py, src/config.py, src/paths.py) together with
  proofs about the behavioural properties stated in the specification.

  Modelling conventions.
  Python dictionaries holding transaction fields become Lean structures.
  Python float amounts are modelled as exact rationals; for each concrete
  literal appearing in a claim (12.34 * 1000, -5.0 * 1000,
  1700000000500 / 1000) the IEEE double computation performed by Python
  is exact, so the rational model and the running code agree on every
  value a claim mentions.
  Python int() (truncation toward zero) becomes truncating division of
  the numerator by the denominator of the rational.
  The date field stores the epoch value in seconds handed to
  datetime.fromtimestamp; since the division by 1000 is true division
  this is a rational, and for one fixed timezone fromtimestamp is
  injective, so distinct epoch values denote distinct local datetimes.
  Exceptions become an explicit error type and fallible code returns
  Except; the retry loop of download_n26_transactions is modelled as a
  recursion over the watchdog counter that also counts fetch attempts
  and accumulates the seconds slept.
-/

namespace N26ToYnab

/-- Python exception values raised (or named) around the embedded code.
The constructor configurationError is modelled from the spec: the module
src.exceptions is not present under src/, and the specification names a
ConfigurationError in its error taxonomy, while no code under src/ ever
raises or imports such a class. The remaining constructors mirror the
exception classes the code under src/ actually raises: ValueError in
src/config.py and src/paths.py, NameError for an f-string that reads an
undefined variable, UnboundLocalError for reading a never-assigned local,
and the three classes imported from src.exceptions in src/api.py. -/
inductive PyError where
  | valueError (msg : String)
  | nameError (ident : String)
  | unboundLocalError (ident : String)
  | configurationError (msg : String)
  | budgetNotFoundError (msg : String)
  | accountNotFoundError (msg : String)
  | authenticationTimeoutError (msg : String)
  deriving Repr, DecidableEq

/-- True exactly on the configurationError constructor. -/
def PyError.isConfigurationError : PyError → Bool
  | .configurationError _ => true
  | _ => false

/-- One transaction in the N26 native format: the fields of the Python
dict that src/api.py reads. merchantName is optional, matching the use
of dict.get with a None default. -/
structure N26Transaction where
  id : String
  type : String
  amount : ℚ
  visibleTS : ℤ
  merchantName : Option String
  deriving Repr, DecidableEq

/-- One transaction in the YNAB format: the dict built by
_convert_n26_transaction_to_ynab in src/api.py. The date field stores
the epoch value in seconds passed to datetime.fromtimestamp. -/
structure YnabTransaction where
  id : String
  import_id : String
  account_id : String
  date : ℚ
  amount : ℤ
  cleared : String
  approved : Bool
  deleted : Bool
  payee_name : Option String
  deriving Repr, DecidableEq

/-- Python int() applied to an exact rational: truncation toward zero,
implemented as truncating division of the numerator by the denominator. -/
def pyInt (q : ℚ) : ℤ := q.num.tdiv q.den

/-- src/api.py, _convert_n26_transaction_to_ynab: field-by-field
translation of one N26 transaction to the YNAB schema. -/
def _convert_n26_transaction_to_ynab (t_n26 : N26Transaction) (account_id : String) :
    YnabTransaction :=
  { id := t_n26.id
    import_id := t_n26.id
    account_id := account_id
    date := (t_n26.visibleTS : ℚ) / 1000
    amount := pyInt (t_n26.amount * 1000)
    cleared := "uncleared"
    approved := false
    deleted := false
    payee_name := t_n26.merchantName }

/-- src/api.py, filter_transactions: the fixed list of provisional
transaction type codes that are removed. -/
def filtered_types : List String := ["AA", "AE", "AV"]

/-- src/api.py, filter_transactions: keep exactly the transactions whose
type is not among filtered_types. -/
def filter_transactions (transactions : List N26Transaction) : List N26Transaction :=
  transactions.filter (fun x => !(filtered_types.contains x.type))

/-- The message of the AuthenticationTimeoutError raised in
download_n26_transactions. -/
def auth_timeout_msg : String := "two-factor auth failed! 😡"

/-- Observable outcome of one call to download_n26_transactions: the
returned value or raised error, the number of fetch attempts made
against the N26 API, and the total number of seconds slept. -/
structure DlOutcome (α : Type) where
  result : Except PyError α
  attempts : ℕ
  sleptTotal : ℤ
  deriving Repr

/-- The while loop of download_n26_transactions, entered with the
watchdog counter at a nonnegative value. fetch gives the outcome of the
i-th call to client.get_transactions: some transactions on success, none
when the two-factor approval times out (tenacity.RetryError). On a
timeout with watchdog at zero the error is raised before any sleep;
otherwise the loop sleeps delay seconds, decrements the watchdog and
retries. -/
def downloadLoop {α : Type} (fetch : ℕ → Option α) (delay : ℤ) : ℕ → ℕ → DlOutcome α
  | i, watchdog =>
    match fetch i with
    | some ts => ⟨Except.ok ts, 1, 0⟩
    | none =>
      match watchdog with
      | 0 => ⟨Except.error (PyError.authenticationTimeoutError auth_timeout_msg), 1, 0⟩
      | w + 1 =>
        let rest := downloadLoop fetch delay (i + 1) w
        ⟨rest.result, rest.attempts + 1, rest.sleptTotal + delay⟩

/-- src/api.py, download_n26_transactions: watchdog starts at retries.
When retries is negative the guard watchdog >= 0 is false at entry, the
loop body never runs, and the final statement reads the never-assigned
local variable transactions, so the call raises UnboundLocalError after
zero fetch attempts and zero sleeping. -/
def download_n26_transactions {α : Type} (fetch : ℕ → Option α) (retries : ℤ) (delay : ℤ) :
    DlOutcome α :=
  if retries < 0 then ⟨Except.error (PyError.unboundLocalError "transactions"), 0, 0⟩
  else downloadLoop fetch delay 0 retries.toNat

/-- One section of config/n26.toml. -/
structure N26AccountConfig where
  username : String
  password : String
  mfa_type : String
  device_token : String
  ynab_account : String
  deriving Repr, DecidableEq

/-- The ynab section of config/ynab.toml. -/
structure YnabConfig where
  api_key : String
  budget_name : String
  deriving Repr, DecidableEq

/-- The state of the config directory: whether each file exists at its
expected location, and the parsed content when it does. The n26 file is
an association list of section name to account section, mirroring the
parsed TOML table (section names are unique). -/
structure ConfigDir where
  n26TomlExists : Bool
  ynabTomlExists : Bool
  n26Toml : List (String × N26AccountConfig)
  ynabToml : YnabConfig
  deriving Repr, DecidableEq

/-- src/paths.py, get_n26_config_filepath: when the file is missing the
code attempts to raise ValueError, but the message f-string reads the
variable account_name, which is not defined in that function, so the
call actually raises NameError. -/
def get_n26_config_filepath (d : ConfigDir) : Except PyError String :=
  if d.n26TomlExists then Except.ok "config/n26.toml"
  else Except.error (PyError.nameError "account_name")

/-- src/paths.py, get_ynab_config_filepath: same shape as the n26 file
path resolution, including the NameError on the missing-file branch. -/
def get_ynab_config_filepath (d : ConfigDir) : Except PyError String :=
  if d.ynabTomlExists then Except.ok "config/ynab.toml"
  else Except.error (PyError.nameError "account_name")

/-- src/config.py, load_n26_config: resolve the path, then parse. -/
def load_n26_config (d : ConfigDir) : Except PyError (List (String × N26AccountConfig)) := do
  let _ ← get_n26_config_filepath d
  pure d.n26Toml

/-- src/config.py, load_ynab_config: resolve the path, then parse. -/
def load_ynab_config (d : ConfigDir) : Except PyError YnabConfig := do
  let _ ← get_ynab_config_filepath d
  pure d.ynabToml

/-- src/config.py, get_n26_account_config: load the file, raise
ValueError when the requested section is absent, otherwise return it. -/
def get_n26_account_config (d : ConfigDir) (account_name : String) :
    Except PyError N26AccountConfig := do
  let config ← load_n26_config d
  match config.lookup account_name with
  | some c => pure c
  | none =>
      Except.error
        (PyError.valueError ("Account with name " ++ account_name ++ " not found in n26.toml"))

/-- One budget as returned by the YNAB budgets endpoint. -/
structure YnabBudget where
  name : String
  id : String
  deriving Repr, DecidableEq

/-- One account as returned by the YNAB accounts endpoint. -/
structure YnabAccount where
  name : String
  id : String
  deriving Repr, DecidableEq

/-- Insertion into a Python dict: an existing key keeps its position and
gets the new value, a new key is appended. -/
def dictInsert (d : List (String × String)) (k v : String) : List (String × String) :=
  if d.any (fun p => p.1 == k) then
    d.map (fun p => if p.1 == k then (k, v) else p)
  else d ++ [(k, v)]

/-- A Python dict comprehension over a list of key-value pairs. -/
def dictOfPairs (pairs : List (String × String)) : List (String × String) :=
  pairs.foldl (fun d p => dictInsert d p.1 p.2) []

/-- list(d.keys()) of a Python dict. -/
def dictKeys (d : List (String × String)) : List String := d.map Prod.fst

/-- src/api.py, get_ynab_budget_id_mapping: budget name to id. -/
def get_ynab_budget_id_mapping (budgets : List YnabBudget) : List (String × String) :=
  dictOfPairs (budgets.map (fun b => (b.name, b.id)))

/-- src/api.py, get_ynab_account_id_mapping: account name to id. -/
def get_ynab_account_id_mapping (accounts : List YnabAccount) : List (String × String) :=
  dictOfPairs (accounts.map (fun a => (a.name, a.id)))

/-- A single-quote character as a string. -/
def sq : String := "\x27"

/-- Python str.join: sep.join(l). -/
def pyJoin (sep : String) : List String → String
  | [] => ""
  | [s] => s
  | s :: rest => s ++ sep ++ pyJoin sep rest

/-- The quoted listing built in upload_n26_transactions_to_ynab. -/
def quoted_list (names : List String) : String :=
  sq ++ pyJoin (sq ++ ", " ++ sq) names ++ sq

/-- The BudgetNotFoundError message of upload_n26_transactions_to_ynab. -/
def budget_not_found_msg (budget_name : String) (names : List String) : String :=
  "Budget named " ++ sq ++ budget_name ++ sq ++ " not found, available ones: " ++
    quoted_list names

/-- The AccountNotFoundError message of upload_n26_transactions_to_ynab. -/
def account_not_found_msg (account_name : String) (names : List String) : String :=
  "YNAB account named " ++ sq ++ account_name ++ sq ++ " not found, available ones: " ++
    quoted_list names

/-- The bulk request issued by upload_n26_transactions_to_ynab: the
resolved budget id, the resolved account id and the translated batch. -/
structure UploadRequest where
  budget_id : String
  account_id : String
  transactions : List YnabTransaction
  deriving Repr, DecidableEq

/-- src/api.py, upload_n26_transactions_to_ynab: resolve the budget name
against the budget mapping, then the account name against the account
mapping of that budget, then translate the batch. accounts_in gives the
accounts the API returns for a budget id. -/
def upload_n26_transactions_to_ynab (budgets : List YnabBudget)
    (accounts_in : String → List YnabAccount) (transactions_n26 : List N26Transaction)
    (budget_name : String) (account_name : String) : Except PyError UploadRequest :=
  match (get_ynab_budget_id_mapping budgets).lookup budget_name with
  | none =>
      Except.error (PyError.budgetNotFoundError
        (budget_not_found_msg budget_name (dictKeys (get_ynab_budget_id_mapping budgets))))
  | some budget_id =>
      match (get_ynab_account_id_mapping (accounts_in budget_id)).lookup account_name with
      | none =>
          Except.error (PyError.accountNotFoundError
            (account_not_found_msg account_name
              (dictKeys (get_ynab_account_id_mapping (accounts_in budget_id)))))
      | some account_id =>
          Except.ok ⟨budget_id, account_id,
            transactions_n26.map (fun t => _convert_n26_transaction_to_ynab t account_id)⟩

/-- The CLI flag values of one run of main.py after int() conversion:
-a account, -r retries, -d delay. -/
structure CliArgs where
  account : String
  retries : ℤ
  delay : ℤ
  deriving Repr, DecidableEq

/-- main.py, the call update_ynab(results.account,
retries=int(results.retries), delay=int(results.retries)): the delay
argument handed to update_ynab is computed from the retries flag, and
the parsed delay flag is never read. -/
def main_delay_argument (args : CliArgs) : ℤ := args.retries

/-- main.py: the retries argument handed to update_ynab. -/
def main_retries_argument (args : CliArgs) : ℤ := args.retries

/-- update_ynab forwards retries and delay unchanged to
download_n26_transactions; composed with the call site in main.py this
is the download outcome of one CLI run. -/
def cli_download {α : Type} (args : CliArgs) (fetch : ℕ → Option α) : DlOutcome α :=
  download_n26_transactions fetch (main_retries_argument args) (main_delay_argument args)

/-- The property that a message string contains the given name as a
contiguous substring. -/
def msg_lists (msg : String) (name : String) : Prop :=
  ∃ pre post, msg.data = pre ++ name.data ++ post

/-- A fetch that always times out. -/
def fetchNone : ℕ → Option (List String) := fun _ => none

/-- A fetch that times out on the first two attempts and succeeds on the
third. -/
def fetchThird : ℕ → Option (List String) := fun i => if i == 2 then some ["t1"] else none

/-- A sample account section. -/
def demo_account_cfg : N26AccountConfig := ⟨"u", "p", "app", "tok", "Main"⟩

/-- A sample ynab section. -/
def demo_ynab_cfg : YnabConfig := ⟨"key", "Personal"⟩

/-- A config directory where both files exist and the n26 file holds one
section named personal. -/
def demo_dir : ConfigDir := ⟨true, true, [("personal", demo_account_cfg)], demo_ynab_cfg⟩

/-- A config directory where both files are missing. -/
def demo_dir_missing : ConfigDir := ⟨false, false, [], demo_ynab_cfg⟩

/-- A sample N26 transaction with a whole-second timestamp. -/
def base_txn : N26Transaction := ⟨"tx-1", "PT", 10, 1700000000000, none⟩

/-- A sample N26 transaction whose timestamp has 500 leftover
milliseconds. -/
def txn_halfsecond : N26Transaction := ⟨"tx-2", "PT", 1, 1700000000500, none⟩

/-- Truncation toward zero agrees with the floor on nonnegative
rationals. -/
theorem pyInt_of_nonneg (q : ℚ) (h : 0 ≤ q) : pyInt q = ⌊q⌋ := by
  have hn : 0 ≤ q.num := Rat.num_nonneg.mpr h
  have hd : (0 : ℤ) ≤ (q.den : ℤ) := Int.ofNat_nonneg _
  show q.num.tdiv q.den = ⌊q⌋
  rw [Int.tdiv_eq_ediv hn hd, Rat.floor_def]

/-- Truncation toward zero commutes with negation. -/
theorem pyInt_neg (q : ℚ) : pyInt (-q) = -pyInt q := by
  show (-q).num.tdiv (-q).den = -(q.num.tdiv q.den)
  simp [Int.neg_tdiv]

/-- Truncation toward zero agrees with the ceiling on nonpositive
rationals. -/
theorem pyInt_of_nonpos (q : ℚ) (h : q ≤ 0) : pyInt q = ⌈q⌉ := by
  have h2 : 0 ≤ -q := neg_nonneg.mpr h
  have h3 := pyInt_of_nonneg (-q) h2
  rw [pyInt_neg, Int.floor_neg] at h3
  omega

/-- C1: the translated amount is the source amount times 1000 truncated
toward zero, which is the floor for a nonnegative amount and the ceiling
for a negative one; in particular the amount 12.34 translates to 12340
and the amount -5.0 translates to -5000. -/
theorem amount_conversion (t : N26Transaction) (acct : String) :
    ((_convert_n26_transaction_to_ynab t acct).amount =
      if 0 ≤ t.amount then ⌊t.amount * 1000⌋ else ⌈t.amount * 1000⌉)
    ∧ (_convert_n26_transaction_to_ynab { base_txn with amount := 12.34 } acct).amount = 12340
    ∧ (_convert_n26_transaction_to_ynab { base_txn with amount := -5.0 } acct).amount = -5000 := by
  refine ⟨?_, ?_, ?_⟩
  case refine_2 =>
    show pyInt ((12.34 : ℚ) * 1000) = 12340
    have h1 : (12.34 : ℚ) * 1000 = 12340 := by norm_num
    rw [h1, pyInt_of_nonneg _ (by norm_num)]
    norm_num
  case refine_3 =>
    show pyInt ((-5.0 : ℚ) * 1000) = -5000
    have h1 : (-5.0 : ℚ) * 1000 = -5000 := by norm_num
    rw [h1, pyInt_of_nonpos _ (by norm_num)]
    rw [show ((-5000 : ℚ)) = ((-5000 : ℤ) : ℚ) by norm_num, Int.ceil_intCast]
  show pyInt (t.amount * 1000) = _
  by_cases h : 0 ≤ t.amount
  · rw [if_pos h, pyInt_of_nonneg _ (by positivity)]
  · push_neg at h
    rw [if_neg (by exact not_le.mpr h), pyInt_of_nonpos _ (by nlinarith)]

/-- C2: translation copies the identifier into both id and import_id,
installs the given account id, fixes cleared to uncleared and approved
and deleted to false, and carries the optional merchant name through to
the payee name unchanged, absent when absent. -/
theorem translate_field_map (t : N26Transaction) (acct : String) :
    (_convert_n26_transaction_to_ynab t acct).import_id = t.id
    ∧ (_convert_n26_transaction_to_ynab t acct).id = t.id
    ∧ (_convert_n26_transaction_to_ynab t acct).account_id = acct
    ∧ (_convert_n26_transaction_to_ynab t acct).cleared = "uncleared"
    ∧ (_convert_n26_transaction_to_ynab t acct).approved = false
    ∧ (_convert_n26_transaction_to_ynab t acct).deleted = false
    ∧ (_convert_n26_transaction_to_ynab t acct).payee_name = t.merchantName :=
  ⟨rfl, rfl, rfl, rfl, rfl, rfl, rfl⟩

/-- C3: filter_transactions returns exactly the subsequence of records
whose type is not among AA, AE, AV: the output is a sublist of the input
(relative order preserved, records unchanged), membership in the output
is membership in the input with a type outside the filtered set, and the
empty list maps to the empty list. -/
theorem filter_transactions_spec (l : List N26Transaction) :
    (filter_transactions l).Sublist l
    ∧ (∀ t : N26Transaction, t ∈ filter_transactions l ↔ t ∈ l ∧ t.type ∉ filtered_types)
    ∧ filter_transactions [] = [] := by
  refine ⟨List.filter_sublist l, ?_, rfl⟩
  intro t
  simp [filter_transactions]

/-- C9: filter_transactions is idempotent. -/
theorem filter_transactions_idempotent (l : List N26Transaction) :
    filter_transactions (filter_transactions l) = filter_transactions l := by
  simp [filter_transactions, List.filter_filter]

/-- The loop makes at most watchdog + 1 fetch attempts. -/
theorem downloadLoop_attempts_le {α : Type} (fetch : ℕ → Option α) (d : ℤ) :
    ∀ (w i : ℕ), (downloadLoop fetch d i w).attempts ≤ w + 1 := by
  intro w
  induction w with
  | zero =>
    intro i
    cases h : fetch i <;> simp [downloadLoop, h]
  | succ w ih =>
    intro i
    cases h : fetch i with
    | some ts => simp [downloadLoop, h]
    | none =>
      have := ih (i + 1)
      simp only [downloadLoop, h]
      omega

/-- When every attempt in the window times out, the loop ends with the
authentication timeout error. -/
theorem downloadLoop_all_none {α : Type} (fetch : ℕ → Option α) (d : ℤ) :
    ∀ (w i : ℕ), (∀ j, i ≤ j → j ≤ i + w → fetch j = none) →
      (downloadLoop fetch d i w).result =
        Except.error (PyError.authenticationTimeoutError auth_timeout_msg) := by
  intro w
  induction w with
  | zero =>
    intro i h
    have h0 : fetch i = none := h i le_rfl (by omega)
    simp [downloadLoop, h0]
  | succ w ih =>
    intro i h
    have h0 : fetch i = none := h i le_rfl (by omega)
    have hr := ih (i + 1) (fun j h1 h2 => h j (by omega) (by omega))
    simp only [downloadLoop, h0]
    exact hr

/-- A nonnegative retries value enters the loop with the watchdog at
that value. -/
theorem download_eq_loop {α : Type} (fetch : ℕ → Option α) (r : ℕ) (d : ℤ) :
    download_n26_transactions fetch (r : ℤ) d = downloadLoop fetch d 0 r := by
  unfold download_n26_transactions
  rw [if_neg (by omega), Int.toNat_natCast]

/-- C4: with a nonnegative retry count r the download makes at most
r + 1 fetch attempts; when every attempt in that window times out the
call ends with the AuthenticationTimeoutError; with retries = 2, two
timeouts followed by a success return the fetched list; with
retries = 0, a single timeout raises the error after exactly one attempt
with zero seconds slept. -/
theorem download_retry_spec {α : Type} (fetch : ℕ → Option α) (r : ℕ) (d : ℤ) (ts : α) :
    (download_n26_transactions fetch (r : ℤ) d).attempts ≤ r + 1
    ∧ ((∀ i, i ≤ r → fetch i = none) →
        (download_n26_transactions fetch (r : ℤ) d).result =
          Except.error (PyError.authenticationTimeoutError auth_timeout_msg))
    ∧ (fetch 0 = none → fetch 1 = none → fetch 2 = some ts →
        (download_n26_transactions fetch (2 : ℤ) d).result = Except.ok ts)
    ∧ (fetch 0 = none →
        download_n26_transactions fetch (0 : ℤ) d =
          ⟨Except.error (PyError.authenticationTimeoutError auth_timeout_msg), 1, 0⟩) := by
  refine ⟨?_, ?_, ?_, ?_⟩
  · rw [download_eq_loop]
    exact downloadLoop_attempts_le fetch d r 0
  · intro h
    rw [download_eq_loop]
    exact downloadLoop_all_none fetch d r 0 (fun j h1 h2 => h j (by omega))
  · intro h0 h1 h2
    rw [show (2 : ℤ) = ((2 : ℕ) : ℤ) by norm_num, download_eq_loop]
    simp [downloadLoop, h0, h1, h2]
  · intro h0
    rw [show (0 : ℤ) = ((0 : ℕ) : ℤ) by norm_num, download_eq_loop]
    simp [downloadLoop, h0]

/-- C4 witness: the concrete scenarios of the claim, at delay 5 and 7
seconds, with a fetch that succeeds on the third attempt and one that
never succeeds. -/
theorem download_retry_spec_witness :
    (download_n26_transactions fetchThird (2 : ℤ) 5).result = Except.ok ["t1"]
    ∧ (download_n26_transactions fetchNone ((1 : ℕ) : ℤ) 7).result =
        Except.error (PyError.authenticationTimeoutError auth_timeout_msg)
    ∧ download_n26_transactions fetchNone (0 : ℤ) 7 =
        ⟨Except.error (PyError.authenticationTimeoutError auth_timeout_msg), 1, 0⟩ :=
  ⟨(download_retry_spec fetchThird 2 5 ["t1"]).2.2.1 rfl rfl rfl,
   (download_retry_spec fetchNone 1 7 ["x"]).2.1 (fun _ _ => rfl),
   (download_retry_spec fetchNone 0 7 ["x"]).2.2.2 rfl⟩

/-- C10: a negative retries value makes the loop guard false at entry:
no fetch attempt is made, nothing is slept, and the call fails by
reading the never-assigned transactions variable instead of returning a
list or raising the authentication timeout error. -/
theorem download_negative_retries {α : Type} (fetch : ℕ → Option α) (retries : ℤ) (d : ℤ)
    (h : retries < 0) :
    download_n26_transactions fetch retries d =
      ⟨Except.error (PyError.unboundLocalError "transactions"), 0, 0⟩ := by
  unfold download_n26_transactions
  rw [if_pos h]

/-- C10 witness: retries = -1. -/
theorem download_negative_retries_witness :
    download_n26_transactions fetchNone (-1) 5 =
      ⟨Except.error (PyError.unboundLocalError "transactions"), 0, 0⟩ :=
  download_negative_retries fetchNone (-1) 5 (by decide)

/-- C5: at the failing input of retries flag 2 and delay flag 600, the
delay argument main.py hands to update_ynab is 2, the retries flag, not
600; with two timeouts before success the run sleeps 4 seconds in total
where the claim expects 1200. -/
theorem main_delay_flag_ignored :
    main_delay_argument ⟨"acct", 2, 600⟩ = 2
    ∧ main_delay_argument ⟨"acct", 2, 600⟩ ≠ 600
    ∧ (cli_download ⟨"acct", 2, 600⟩ fetchThird).sleptTotal = 4
    ∧ (cli_download ⟨"acct", 2, 600⟩ fetchThird).sleptTotal ≠ 1200 := by
  refine ⟨rfl, by decide, ?_, ?_⟩ <;>
    simp [cli_download, main_delay_argument, main_retries_argument,
      download_n26_transactions, downloadLoop, fetchThird]

/-- C6 counterexample: with the n26 configuration file present and
holding only the section personal, asking for business fails with a
ValueError, which is not the ConfigurationError the claim names. -/
theorem config_error_counterexample :
    get_n26_account_config demo_dir "business" =
      Except.error (PyError.valueError "Account with name business not found in n26.toml")
    ∧ PyError.isConfigurationError
        (PyError.valueError "Account with name business not found in n26.toml") = false :=
  ⟨rfl, rfl⟩

/-- C6 amended: the configuration loader fails in exactly the claimed
cases, but with ValueError when the requested account name is absent
from the bank configuration store, and with NameError when either
configuration file is missing from the expected location, because the
message f-string of the intended ValueError reads an undefined variable;
the loader succeeds in every other case and never raises a
ConfigurationError. -/
theorem config_loader_spec (d : ConfigDir) (name : String) :
    (d.n26TomlExists = false →
      get_n26_account_config d name = Except.error (PyError.nameError "account_name"))
    ∧ (d.n26TomlExists = true → d.n26Toml.lookup name = none →
      get_n26_account_config d name =
        Except.error
          (PyError.valueError ("Account with name " ++ name ++ " not found in n26.toml")))
    ∧ (∀ c, d.n26TomlExists = true → d.n26Toml.lookup name = some c →
      get_n26_account_config d name = Except.ok c)
    ∧ (d.ynabTomlExists = false →
      load_ynab_config d = Except.error (PyError.nameError "account_name"))
    ∧ (d.ynabTomlExists = true → load_ynab_config d = Except.ok d.ynabToml) := by
  refine ⟨?_, ?_, ?_, ?_, ?_⟩
  · intro h1
    simp [get_n26_account_config, load_n26_config, get_n26_config_filepath, h1,
      bind, Except.bind]
  · intro h1 h2
    simp [get_n26_account_config, load_n26_config, get_n26_config_filepath, h1, h2,
      bind, Except.bind, pure, Except.pure]
  · intro c h1 h2
    simp [get_n26_account_config, load_n26_config, get_n26_config_filepath, h1, h2,
      bind, Except.bind, pure, Except.pure]
  · intro h1
    simp [load_ynab_config, get_ynab_config_filepath, h1, bind, Except.bind]
  · intro h1
    simp [load_ynab_config, get_ynab_config_filepath, h1, bind, Except.bind,
      pure, Except.pure]

/-- C6 witness: the amended behaviour at the sample directories, for the
missing-file case, the present-section case and the ynab success case. -/
theorem config_loader_spec_witness :
    get_n26_account_config demo_dir_missing "personal" =
      Except.error (PyError.nameError "account_name")
    ∧ get_n26_account_config demo_dir "personal" = Except.ok demo_account_cfg
    ∧ load_ynab_config demo_dir = Except.ok demo_ynab_cfg :=
  ⟨(config_loader_spec demo_dir_missing "personal").1 rfl,
   (config_loader_spec demo_dir "personal").2.2.1 demo_account_cfg rfl rfl,
   (config_loader_spec demo_dir "personal").2.2.2.2 rfl⟩

/-- C7 counterexample: at visibleTS 1700000000500 the code hands
datetime.fromtimestamp the epoch value 1700000000.5, produced by true
division, and not the truncated epoch second 1700000000; under one fixed
timezone fromtimestamp is injective, so the resulting local datetime is
not the one the claim requires. This division is exact in IEEE doubles
as well, so the rational model agrees with the running code here. -/
theorem date_truncation_counterexample :
    (_convert_n26_transaction_to_ynab txn_halfsecond "a1").date ≠ (1700000000 : ℚ)
    ∧ (_convert_n26_transaction_to_ynab txn_halfsecond "a1").date = 3400000001 / 2 := by
  constructor
  · show ((1700000000500 : ℤ) : ℚ) / 1000 ≠ (1700000000 : ℚ)
    norm_num
  · show ((1700000000500 : ℤ) : ℚ) / 1000 = 3400000001 / 2
    norm_num

/-- C7 amended: the date handed to fromtimestamp is visibleTS divided by
1000 with exact division, so fractional milliseconds survive as
fractional seconds rather than being truncated; whenever visibleTS is a
multiple of 1000 this coincides with the truncated epoch second, and in
particular 1700000000000 maps to the local datetime of epoch second
1700000000. -/
theorem date_conversion_spec (t : N26Transaction) (acct : String) :
    (_convert_n26_transaction_to_ynab t acct).date = (t.visibleTS : ℚ) / 1000
    ∧ ((1000 : ℤ) ∣ t.visibleTS →
        (_convert_n26_transaction_to_ynab t acct).date = ((t.visibleTS / 1000 : ℤ) : ℚ))
    ∧ (t.visibleTS = 1700000000000 →
        (_convert_n26_transaction_to_ynab t acct).date = 1700000000) := by
  refine ⟨rfl, ?_, ?_⟩
  · rintro ⟨k, hk⟩
    show ((t.visibleTS : ℚ)) / 1000 = ((t.visibleTS / 1000 : ℤ) : ℚ)
    rw [hk, Int.mul_ediv_cancel_left _ (by norm_num)]
    push_cast
    ring
  · intro h
    show ((t.visibleTS : ℚ)) / 1000 = 1700000000
    rw [h]
    norm_num

/-- C7 witness: the concrete timestamp of the claim. -/
theorem date_conversion_spec_witness :
    (_convert_n26_transaction_to_ynab base_txn "a1").date = 1700000000 :=
  (date_conversion_spec base_txn "a1").2.2 rfl

/-- A key outside the key list of an association list has no binding. -/
theorem lookup_eq_none_of_not_mem_keys :
    ∀ (d : List (String × String)) (k : String), k ∉ dictKeys d → d.lookup k = none := by
  intro d k
  induction d with
  | nil => intro _; rfl
  | cons p rest ih =>
    intro h
    have h1 : ¬(k = p.1) := fun he => h (by simp [dictKeys, he])
    have h2 : k ∉ dictKeys rest := fun hm => h (by simp [dictKeys] at hm ⊢; exact Or.inr hm)
    simp [List.lookup, beq_eq_false_iff_ne.mpr h1, ih h2]

/-- Every element of a joined list occurs contiguously in the join. -/
theorem pyJoin_data_mem (sep : String) :
    ∀ (l : List String) (n : String), n ∈ l →
      ∃ pre post, (pyJoin sep l).data = pre ++ n.data ++ post := by
  intro l
  induction l with
  | nil => intro n h; cases h
  | cons s rest ih =>
    intro n hn
    cases rest with
    | nil =>
      have he : n = s := by simpa using hn
      subst he
      exact ⟨[], [], by simp [pyJoin]⟩
    | cons b bs =>
      rcases List.mem_cons.mp hn with he | hm
      · subst he
        exact ⟨[], sep.data ++ (pyJoin sep (b :: bs)).data,
          by simp [pyJoin, String.data_append]⟩
      · rcases ih n hm with ⟨pre, post, hp⟩
        exact ⟨s.data ++ sep.data ++ pre, post,
          by simp [pyJoin, String.data_append, hp]⟩

/-- Every listed name occurs contiguously in a message that ends with
the quoted listing of the names. -/
theorem header_quoted_mem (header : String) (names : List String) (n : String)
    (h : n ∈ names) : msg_lists (header ++ quoted_list names) n := by
  rcases pyJoin_data_mem (sq ++ ", " ++ sq) names n h with ⟨pre, post, hp⟩
  exact ⟨header.data ++ sq.data ++ pre, post ++ sq.data,
    by simp [quoted_list, String.data_append, hp]⟩

/-- C8: when the requested budget name is not a key of the name to id
mapping built from the budget list, the upload fails with a
BudgetNotFoundError whose message lists every available budget name;
when the budget resolves but the requested account name is absent from
the account mapping of that budget, the upload fails with an
AccountNotFoundError whose message lists every available account name. -/
theorem resolution_errors_spec (budgets : List YnabBudget)
    (accounts_in : String → List YnabAccount) (txns : List N26Transaction)
    (budget_name account_name : String) :
    (budget_name ∉ dictKeys (get_ynab_budget_id_mapping budgets) →
      upload_n26_transactions_to_ynab budgets accounts_in txns budget_name account_name =
        Except.error (PyError.budgetNotFoundError
          (budget_not_found_msg budget_name (dictKeys (get_ynab_budget_id_mapping budgets))))
      ∧ ∀ n ∈ dictKeys (get_ynab_budget_id_mapping budgets),
          msg_lists
            (budget_not_found_msg budget_name (dictKeys (get_ynab_budget_id_mapping budgets)))
            n)
    ∧ (∀ bid, (get_ynab_budget_id_mapping budgets).lookup budget_name = some bid →
        account_name ∉ dictKeys (get_ynab_account_id_mapping (accounts_in bid)) →
        upload_n26_transactions_to_ynab budgets accounts_in txns budget_name account_name =
          Except.error (PyError.accountNotFoundError
            (account_not_found_msg account_name
              (dictKeys (get_ynab_account_id_mapping (accounts_in bid)))))
        ∧ ∀ n ∈ dictKeys (get_ynab_account_id_mapping (accounts_in bid)),
            msg_lists
              (account_not_found_msg account_name
                (dictKeys (get_ynab_account_id_mapping (accounts_in bid))))
              n) := by
  constructor
  · intro h
    have hl := lookup_eq_none_of_not_mem_keys (get_ynab_budget_id_mapping budgets)
      budget_name h
    constructor
    · simp [upload_n26_transactions_to_ynab, hl]
    · intro n hn
      exact header_quoted_mem _ _ n hn
  · intro bid hbid h
    have hl := lookup_eq_none_of_not_mem_keys
      (get_ynab_account_id_mapping (accounts_in bid)) account_name h
    constructor
    · simp [upload_n26_transactions_to_ynab, hbid, hl]
    · intro n hn
      exact header_quoted_mem _ _ n hn

/-- C8 witness: the concrete instance of the claim, with only the budget
Personal available and Business requested: the upload fails with a
BudgetNotFoundError whose message contains Personal. -/
theorem resolution_errors_spec_witness :
    upload_n26_transactions_to_ynab [⟨"Personal", "id1"⟩] (fun _ => []) [] "Business" "Acc" =
      Except.error (PyError.budgetNotFoundError (budget_not_found_msg "Business" ["Personal"]))
    ∧ msg_lists (budget_not_found_msg "Business" ["Personal"]) "Personal" := by
  have h := (resolution_errors_spec [⟨"Personal", "id1"⟩] (fun _ => []) [] "Business" "Acc").1
    (by decide)
  exact ⟨h.1, h.2 "Personal" (by decide)⟩

end N26ToYnab
